import Mathlib

/-!
Verification of the ChangeWLD backend (order-tracking / rate-cache service).

This file is a shallow embedding of the JavaScript sources into Lean:

* JS `Number` values that the code keeps finite are modelled as `ℚ`;
  possibly-NaN inputs carry an explicit finiteness flag mirroring the
  `Number.isFinite` checks of the source.
* Timestamps are natural numbers.  Colombia wall-clock datetimes (produced by
  `getColombiaNow`) are modelled by `ColTime`: a day number (days since the
  Unix epoch, 1970-01-01, which was a Thursday) together with hour and minute.
  `Date.prototype.getDay`, `setDate(+k)` and `toISOString().slice(0,10)`
  then correspond to `dayOfWeek`, `days + k` and `days` (the standard
  assumption that the process runs with a UTC system clock, under which the
  shifted-epoch trick of `getColombiaNow` makes the local getters and
  `toISOString` agree on the Colombia wall clock).
* The MongoDB collection of orders together with the `Counter` document is
  modelled by `Store` (a list of records plus the last allocated id); the
  lexicographic `$gte` comparison on equal-format ISO strings coincides with
  the numeric order on timestamps.
* Upstream HTTP fetches are effectful; each handler takes the *outcome* of
  the fetch (an `Except`) as an explicit argument.  `jwt.verify` is modelled
  as an explicit verifier function `String → Option JwtPayload` returning
  `none` on malformed / bad-signature / expired tokens.
* `getCachedRate` additionally returns a `Bool` recording whether the
  upstream-fetch path was taken (observable in the source as whether
  `computeRateNow` is awaited); this instruments the cache-hit property.
-/

namespace ChangeWLD

/-! ## Colombia wall-clock time and the inventory-date rule (server.js 474-537) -/

/-- A Colombia wall-clock datetime: `days` since 1970-01-01, plus hour and
minute of day. -/
structure ColTime where
  days : ℕ
  hour : ℕ
  minute : ℕ
deriving Repr, DecidableEq

/-- JS `Date.prototype.getDay` (0 = Sunday … 6 = Saturday); 1970-01-01 was a
Thursday (4). -/
def dayOfWeek (days : ℕ) : ℕ := (days + 4) % 7

/-- Linear timestamp (minutes since the epoch) of a `ColTime`; the image of
`toISOString` on equal-format instants is ordered the same way. -/
def toTs (d : ColTime) : ℕ := d.days * 1440 + d.hour * 60 + d.minute

/-- `calcularInventarioFecha` (server.js 485-537): the inventory date
(`YYYY-MM-DD`, modelled as the day number) assigned to an order created at
the given Colombia local datetime.  The redundant `minute >= 0` subterms of
the source conditions are kept as written. -/
def calcularInventarioFecha (d : ColTime) : ℕ :=
  let day := dayOfWeek d.days
  if day = 0 then
    d.days + 1
  else if 1 ≤ day ∧ day ≤ 4 then
    if 17 < d.hour ∨ (d.hour = 17 ∧ 0 ≤ d.minute) then d.days + 1 else d.days
  else if day = 5 then
    if 17 < d.hour ∨ (d.hour = 17 ∧ 0 ≤ d.minute) then d.days + 1 else d.days
  else if day = 6 then
    if 15 < d.hour ∨ (d.hour = 15 ∧ 0 ≤ d.minute) then d.days + 2 else d.days
  else
    d.days

/-- The business-day rule as the specification words it: Sunday always rolls
to Monday; Monday-Thursday roll to the next calendar day iff the local time
is at or after 17:00; Friday rolls to Saturday iff at or after 17:00;
Saturday rolls to Monday (two days later, skipping Sunday) iff at or after
15:00.  "At or after H:00" is `H * 60 ≤ hour * 60 + minute`. -/
def inventarioFechaSpec (d : ColTime) : ℕ :=
  let dow := dayOfWeek d.days
  let t := d.hour * 60 + d.minute
  if dow = 0 then d.days + 1
  else if dow ≤ 4 then (if 17 * 60 ≤ t then d.days + 1 else d.days)
  else if dow = 5 then (if 17 * 60 ≤ t then d.days + 1 else d.days)
  else (if 15 * 60 ≤ t then d.days + 2 else d.days)

/-! ## Rounding helper: JS `Number(x.toFixed(2))`, idealised over ℚ as
round-half-up to two decimal places. -/

/-- Round a rational to two decimal places, half away up (the idealisation of
`Number(x.toFixed(2))` for the magnitudes handled by the service). -/
def round2 (q : ℚ) : ℚ := ((q * 100 + 1 / 2).floor : ℚ) / 100

/-! ## Rate service (src/services/rateService.js) -/

/-- Outcome of a successful `fetchWorldAppPrices` call: the decoded WLD/USD
price (the source tolerates `null` here) and the decoded WLD/COP price
(guaranteed finite, else the fetch throws). -/
structure PricesResult where
  wldUsd : Option ℚ
  wldCop : ℚ
deriving Repr, DecidableEq

/-- The payload built by `computeRateNow` (rateService.js).  `fecha` is the
computation timestamp (`new Date().toISOString()`), modelled as a number. -/
structure RatePayload where
  wld_usd : Option ℚ
  usd_cop : Option ℚ
  wld_cop_bruto : ℚ
  wld_cop_usuario : ℚ
  spread_percent : ℚ
  fuente : String
  fecha : ℕ
deriving Repr, DecidableEq

/-- `computeRateNow` (rateService.js 71-93), as a function of the outcome of
`fetchWorldAppPrices`: gross rate is the WLD/COP price, user rate is gross
times `(1 - SPREAD)`, both stored through `toFixed(2)`; `usd_cop` is derived
only when a positive WLD/USD price is present. -/
def computeRateNow (spread : ℚ) (now : ℕ) (fetched : Except String PricesResult) :
    Except String RatePayload :=
  match fetched with
  | .error e => .error e
  | .ok p =>
    let wldCopBruto := p.wldCop
    let wldCopUsuario := wldCopBruto * (1 - spread)
    let usdCop : Option ℚ :=
      match p.wldUsd with
      | some u => if 0 < u then some (wldCopBruto / u) else none
      | none => none
    .ok
      { wld_usd := p.wldUsd
        usd_cop := usdCop
        wld_cop_bruto := round2 wldCopBruto
        wld_cop_usuario := round2 wldCopUsuario
        spread_percent := spread * 100
        fuente := "worldapp_get_prices"
        fecha := now }

/-- A response of `getCachedRate`: the payload plus the `cache` / `stale`
markers (`stale` absent in the JS object is modelled as `false`). -/
structure RateResult where
  payload : RatePayload
  cache : Bool
  stale : Bool
deriving Repr, DecidableEq

/-- The module-level `_cache` object of rateService.js. -/
structure RateCacheState where
  data : Option RatePayload
  updatedAt : ℕ
  ttlMs : ℕ
deriving Repr, DecidableEq

/-- `getCachedRate` (rateService.js 95-116).  Returns the response (or the
propagated error), the new cache state, and a flag recording whether the
upstream-fetch path (`computeRateNow`) was taken. -/
def getCachedRate (spread : ℚ) (st : RateCacheState) (now : ℕ) (force : Bool)
    (fetched : Except String PricesResult) :
    Except String RateResult × RateCacheState × Bool :=
  let isStale : Bool := decide ((st.ttlMs : ℤ) < (now : ℤ) - (st.updatedAt : ℤ))
  match st.data with
  | some d =>
    if force = false ∧ isStale = false then
      (.ok { payload := d, cache := true, stale := false }, st, false)
    else
      match computeRateNow spread now fetched with
      | .ok fresh =>
        (.ok { payload := fresh, cache := false, stale := false },
          { st with data := some fresh, updatedAt := now }, true)
      | .error _ =>
        (.ok { payload := d, cache := true, stale := true }, st, true)
  | none =>
    match computeRateNow spread now fetched with
    | .ok fresh =>
      (.ok { payload := fresh, cache := false, stale := false },
        { st with data := some fresh, updatedAt := now }, true)
    | .error e => (.error e, st, true)

/-! ## Legacy inline rate handler (server.js 86-134, file-store variant) -/

/-- Response of the legacy `/api/rate` handler; `cached` is the marker the
handler adds on a cache hit (absent, i.e. `false`, on a fresh computation). -/
structure LegacyRateResp where
  ok : Bool
  wld_usd : ℚ
  usd_cop : ℚ
  wld_cop_bruto : ℚ
  wld_cop_usuario : ℚ
  spread_percent : ℚ
  cached : Bool
deriving Repr, DecidableEq

/-- The module-level legacy-handler pair `cachedRate` / `lastFetchTime` pair. -/
structure LegacyCacheState where
  cachedRate : Option LegacyRateResp
  lastFetchTime : ℕ
deriving Repr, DecidableEq

/-- Fresh-path computation of the legacy `/api/rate` handler: each upstream
leg falls back to its configured constant (0.76 USD per WLD, 3700 COP per
USD) when its fetch fails. -/
def legacyFresh (spread : ℚ) (now : ℕ) (binance : Except String ℚ)
    (fx : Except String ℚ) : LegacyRateResp × LegacyCacheState :=
  let wldUsd : ℚ := match binance with | .ok v => v | .error _ => 76 / 100
  let usdCop : ℚ := match fx with | .ok v => v | .error _ => 3700
  let bruto := wldUsd * usdCop
  let usuario := bruto * (1 - spread)
  let resp : LegacyRateResp :=
    { ok := true
      wld_usd := wldUsd
      usd_cop := usdCop
      wld_cop_bruto := bruto
      wld_cop_usuario := usuario
      spread_percent := spread * 100
      cached := false }
  (resp, { cachedRate := some resp, lastFetchTime := now })

/-- The legacy `/api/rate` handler (server.js 89-134): serve the cache while
it is younger than 60 s, otherwise recompute with per-leg fallbacks. -/
def legacyApiRate (spread : ℚ) (st : LegacyCacheState) (now : ℕ)
    (binance : Except String ℚ) (fx : Except String ℚ) :
    LegacyRateResp × LegacyCacheState :=
  match st.cachedRate with
  | some c =>
    if (now : ℤ) - (st.lastFetchTime : ℤ) < 60000 then
      ({ c with cached := true }, st)
    else legacyFresh spread now binance fx
  | none => legacyFresh spread now binance fx

/-! ## Order store and order creation (server.js 382-436, 969-1066) -/

/-- An order document (the `orderSchema` fields used by the handlers).
Timestamp strings (`creada_en`, `actualizada_en`, history `at`) are modelled
as numbers, ordered like equal-format ISO strings. -/
structure OrderRec where
  id : ℕ
  banco : String
  titular : String
  numero : String
  montoWLD : ℚ
  montoCOP : ℚ
  verified : Bool
  nullifier : String
  estado : String
  creada_en : ℕ
  actualizada_en : ℕ
  wld_tx_id : Option String
  inventario_fecha : ℕ
  ganancia_cop : ℚ
  status_history : List (ℕ × String)
deriving Repr, DecidableEq

/-- The MongoDB state visible to the handlers: the `Order` collection plus
the `Counter` document for key `order` (`counter` = last allocated id;
`getNextOrderId` atomically increments and returns it). -/
structure Store where
  orders : List OrderRec
  counter : ℕ
deriving Repr, DecidableEq

/-- Request body of `POST /api/orders`.  `montoWLD` is the value of
`Number(montoWLD || 0)` with `montoFinite` recording `Number.isFinite` of it
(`ℚ` itself has no NaN/Infinity); likewise `montoCopFinite` for
`Number(montoCOP)`. -/
structure CreateInput where
  banco : String
  titular : String
  numero : String
  montoWLD : ℚ
  montoFinite : Bool
  montoCOP : ℚ
  montoCopFinite : Bool
  verified : Bool
  nullifier : String
  wld_tx_id : Option String
deriving Repr, DecidableEq

/-- An error response: HTTP status plus the `error` message of the JSON body. -/
structure ErrResp where
  status : ℕ
  error : String
deriving Repr, DecidableEq

/-- `bancosPermitidos` (server.js 982). -/
def bancosPermitidos : List String := ["Nequi", "Llave Bre-B"]

/-- The quota query of `POST /api/orders` (server.js 1011-1014): orders of
the given nullifier created at or after the start (midnight, Colombia) of
the current day; `inicioHoy` is the `toTs` of midnight of that day. -/
def ordersToday (orders : List OrderRec) (n : String) (inicioHoy : ℕ) : List OrderRec :=
  orders.filter (fun o => o.nullifier == n && decide (inicioHoy ≤ o.creada_en))

/-- The `POST /api/orders` handler (server.js 969-1066), as a function of the
Colombia wall-clock `now` (`getColombiaNow()`).  Returns the response and the
new store; validation failures leave the store untouched. -/
def createOrder (maxPerDay : ℕ) (spread : ℚ) (now : ColTime) (input : CreateInput)
    (st : Store) : Except ErrResp OrderRec × Store :=
  if ¬ (input.banco ∈ bancosPermitidos) then
    (.error ⟨400, "Banco no permitido"⟩, st)
  else if input.verified = false ∨ input.nullifier = "" then
    (.error ⟨400, "Orden sin verificación World ID"⟩, st)
  else if input.montoFinite = false ∨ input.montoWLD < 1 then
    (.error ⟨400, "El monto mínimo por orden es de 1 WLD."⟩, st)
  else
    let inicioHoy := now.days * 1440
    let hoy := ordersToday st.orders input.nullifier inicioHoy
    if maxPerDay ≤ hoy.length then
      (.error ⟨429, "Has alcanzado el número máximo de órdenes permitidas por hoy. Intenta nuevamente mañana."⟩, st)
    else
      let ahora := toTs now
      let invFecha := calcularInventarioFecha now
      let ganancia : ℚ :=
        if input.montoCopFinite = false ∨ spread ≤ 0 ∨ 1 ≤ spread then 0
        else round2 (input.montoCOP * spread / (1 - spread))
      let newId := st.counter + 1
      let orden : OrderRec :=
        { id := newId
          banco := input.banco
          titular := input.titular
          numero := input.numero
          montoWLD := input.montoWLD
          montoCOP := input.montoCOP
          verified := input.verified
          nullifier := input.nullifier
          estado := "pendiente"
          creada_en := ahora
          actualizada_en := ahora
          wld_tx_id :=
            match input.wld_tx_id with
            | some s => if s = "" then none else some s
            | none => none
          inventario_fecha := invFecha
          ganancia_cop := ganancia
          status_history := [(ahora, "pendiente")] }
      (.ok orden, { orders := orden :: st.orders, counter := newId })

/-! ## Admin gate and status update (server.js 449-465, 1219-1262) -/

/-- The decoded claims of an admin JWT. -/
structure JwtPayload where
  role : String
deriving Repr, DecidableEq

/-- `authHeader.startsWith("Bearer ")`, expressed over the character data
(the scheme prefix is 7 ASCII characters, so the JS UTF-16-unit comparison
is the 7-character comparison). -/
def startsWithBearer (h : String) : Bool := h.data.take 7 == ("Bearer ").data

/-- `authHeader.slice(7)`: the token after the 7-character scheme prefix. -/
def sliceFrom7 (h : String) : String := ⟨h.data.drop 7⟩

/-- `isAdminAuthenticated` (server.js 449-465).  `verify` models
`jwt.verify(token, ADMIN_JWT_SECRET)`: `none` on a malformed, badly signed
or expired token.  A missing `Authorization` header is `none` (in the source the
`|| ""` fails the `Bearer ` check). -/
def isAdminAuthenticated (verify : String → Option JwtPayload)
    (authHeader : Option String) : Bool :=
  match authHeader with
  | none => false
  | some h =>
    if ¬ startsWithBearer h then false
    else
      match verify (sliceFrom7 h) with
      | none => false
      | some payload => payload.role == "admin"

/-- The valid target states of `PUT /api/orders/:id/estado` (server.js
1229-1235). -/
def validos : List String := ["pendiente", "enviada", "recibida_wld", "pagada", "rechazada"]

/-- The `PUT /api/orders/:id/estado` handler (server.js 1219-1262): admin
check, target-state membership check, lookup by numeric id, then mutate
`estado`, refresh `actualizada_en`, append to `status_history` and save.
(The `Array.isArray` guard of the source is the identity here: histories are
lists by construction.) -/
def putOrderEstado (verify : String → Option JwtPayload) (authHeader : Option String)
    (idParam : ℕ) (estado : String) (now : ℕ) (st : Store) :
    Except ErrResp OrderRec × Store :=
  if ¬ isAdminAuthenticated verify authHeader then
    (.error ⟨403, "No autorizado (admin)"⟩, st)
  else if ¬ validos.contains estado then
    (.error ⟨400, "Estado inválido"⟩, st)
  else
    match st.orders.find? (fun o => o.id == idParam) with
    | none => (.error ⟨404, "Orden no encontrada"⟩, st)
    | some orden =>
      let orden2 : OrderRec :=
        { orden with
          estado := estado
          actualizada_en := now
          status_history := orden.status_history ++ [(now, estado)] }
      (.ok orden2,
        { st with orders := st.orders.map (fun o => if o.id == idParam then orden2 else o) })

/-! ## Helper lemmas -/

theorem rat_floor_le (q : ℚ) : (q.floor : ℚ) ≤ q := Rat.le_floor.mp le_rfl

theorem rat_lt_floor_add_one (q : ℚ) : q < (q.floor : ℚ) + 1 := by
  by_contra hc
  push_neg at hc
  have h2 : q.floor + 1 ≤ q.floor := Rat.le_floor.mpr (by push_cast; linarith)
  omega

theorem abs_round2_sub_le (q : ℚ) : |round2 q - q| ≤ 1 / 200 := by
  have h1 := rat_floor_le (q * 100 + 1 / 2)
  have h2 := rat_lt_floor_add_one (q * 100 + 1 / 2)
  rw [round2, abs_le]
  constructor <;> linarith

/-! ## C1: the inventory/business-date rule -/

/-- C1: for every Colombia local datetime, `calcularInventarioFecha` computes
exactly the business-date rule of the spec: Sunday always rolls to Monday;
Monday-Thursday roll to the next calendar day iff the local time is at or
after 17:00, else the same day; Friday rolls to Saturday iff at or after
17:00; Saturday rolls to Monday (skipping Sunday) iff at or after 15:00.
In particular Friday 16:59 gives the same day, Friday 17:00 gives Saturday,
Saturday 14:59 the same day, Saturday 15:00 Monday, and Sunday always
Monday. -/
theorem inventario_fecha_matches_spec (d : ColTime) (hm : d.minute < 60) :
    calcularInventarioFecha d = inventarioFechaSpec d := by
  simp only [calcularInventarioFecha, inventarioFechaSpec, dayOfWeek]
  split_ifs <;> omega

/-- Witness for C1 at Friday (1970-01-02) 16:59 Colombia time. -/
theorem inventario_fecha_matches_spec_witness :
    calcularInventarioFecha ⟨1, 16, 59⟩ = inventarioFechaSpec ⟨1, 16, 59⟩ :=
  inventario_fecha_matches_spec ⟨1, 16, 59⟩ (by norm_num)

/-! ## C3: cold-start behaviour of the rate operation -/

/-- C3 counterexample: on a cold start (no cached snapshot) with the upstream
fetch failing, `getCachedRate` — the rate operation of the current server —
propagates the error instead of returning a fallback snapshot, so the
`/api/rate` endpoint hard-fails with 500. -/
theorem get_cached_rate_cold_start_counterexample :
    (getCachedRate (1 / 4) ⟨none, 0, 60000⟩ 1000 false
        (Except.error ("World App prices HTTP 500"))).1
      = Except.error ("World App prices HTTP 500") := rfl

/-- C3 amended: on cold start with every upstream fetch failing,
`getCachedRate` propagates the fetch error (no snapshot, no fallback — the
endpoint answers 500); only the legacy inline `/api/rate` handler substitutes
the configured fallback constants (0.76 USD/WLD and 3700 COP/USD) per leg and
answers without error, not marked as cached. -/
theorem rate_cold_start_behaviour (spread : ℚ) (st : RateCacheState) (now : ℕ)
    (force : Bool) (msg : String) (lst : LegacyCacheState) (lnow : ℕ) (e1 e2 : String)
    (hcold : st.data = none) (hlcold : lst.cachedRate = none) :
    (getCachedRate spread st now force (Except.error msg)).1 = Except.error msg ∧
    (legacyApiRate spread lst lnow (Except.error e1) (Except.error e2)).1 =
      { ok := true
        wld_usd := 76 / 100
        usd_cop := 3700
        wld_cop_bruto := 76 / 100 * 3700
        wld_cop_usuario := 76 / 100 * 3700 * (1 - spread)
        spread_percent := spread * 100
        cached := false } := by
  constructor
  · unfold getCachedRate
    rw [hcold]
    rfl
  · unfold legacyApiRate
    rw [hlcold]
    rfl

/-- Witness for C3 (amended) on concrete cold-start states. -/
theorem rate_cold_start_behaviour_witness :
    (getCachedRate (1 / 4) ⟨none, 0, 60000⟩ 1000 false
        (Except.error ("err a"))).1 = Except.error ("err a") ∧
    (legacyApiRate (1 / 4) ⟨none, 0⟩ 1000 (Except.error ("err b"))
        (Except.error ("err c"))).1 =
      { ok := true
        wld_usd := 76 / 100
        usd_cop := 3700
        wld_cop_bruto := 76 / 100 * 3700
        wld_cop_usuario := 76 / 100 * 3700 * (1 - 1 / 4)
        spread_percent := 1 / 4 * 100
        cached := false } :=
  rate_cold_start_behaviour (1 / 4) ⟨none, 0, 60000⟩ 1000 false ("err a")
    ⟨none, 0⟩ 1000 ("err b") ("err c") rfl rfl

/-! ## C4: failed refresh with an existing cache serves the stale snapshot -/

/-- C4: whenever a refresh is attempted (`force`, or the cache is past its
TTL) and the upstream fetch fails while a cached snapshot exists,
`getCachedRate` returns that snapshot marked `stale := true` and
`cache := true` instead of propagating the error, and the stored cache state
is left unchanged. -/
theorem get_cached_rate_stale_on_failure (spread : ℚ) (st : RateCacheState)
    (d : RatePayload) (now : ℕ) (force : Bool) (msg : String)
    (hd : st.data = some d)
    (hattempt : force = true ∨ (st.ttlMs : ℤ) < (now : ℤ) - (st.updatedAt : ℤ)) :
    getCachedRate spread st now force (Except.error msg)
      = (Except.ok { payload := d, cache := true, stale := true }, st, true) := by
  have hcond : ¬ (force = false ∧
      decide ((st.ttlMs : ℤ) < (now : ℤ) - (st.updatedAt : ℤ)) = false) := by
    rintro ⟨hf, hs⟩
    rcases hattempt with h | h
    · rw [h] at hf; exact Bool.noConfusion hf
    · rw [decide_eq_false_iff_not] at hs; exact hs h
  unfold getCachedRate
  rw [hd]
  dsimp only
  rw [if_neg hcond]
  rfl

/-- Witness for C4: a forced refresh that fails with a populated cache. -/
theorem get_cached_rate_stale_on_failure_witness :
    getCachedRate (1 / 4)
        ⟨some { wld_usd := some 1, usd_cop := some 4000, wld_cop_bruto := 4000,
                wld_cop_usuario := 3000, spread_percent := 25,
                fuente := "worldapp_get_prices", fecha := 5 }, 0, 60000⟩
        7 true (Except.error ("boom"))
      = (Except.ok
          { payload := { wld_usd := some 1, usd_cop := some 4000, wld_cop_bruto := 4000,
                         wld_cop_usuario := 3000, spread_percent := 25,
                         fuente := "worldapp_get_prices", fecha := 5 }
            cache := true
            stale := true },
         ⟨some { wld_usd := some 1, usd_cop := some 4000, wld_cop_bruto := 4000,
                 wld_cop_usuario := 3000, spread_percent := 25,
                 fuente := "worldapp_get_prices", fecha := 5 }, 0, 60000⟩, true) :=
  get_cached_rate_stale_on_failure (1 / 4) _ _ 7 true ("boom") rfl (Or.inl rfl)

/-! ## C5: cache hits within the TTL are identical and fetch-free -/

/-- C5: two `getCachedRate` calls with `force := false` made while a cached
snapshot exists whose age is within the TTL both return that identical
snapshot (same payload, including its `fecha` computation timestamp) marked
as coming from cache, leave the cache state unchanged, and take no
upstream-fetch path (final component `false`) — regardless of what the
upstreams would have answered. -/
theorem get_cached_rate_ttl_idempotent (spread : ℚ) (st : RateCacheState)
    (d : RatePayload) (t1 t2 : ℕ) (f1 f2 : Except String PricesResult)
    (hd : st.data = some d)
    (h1 : (t1 : ℤ) - (st.updatedAt : ℤ) ≤ (st.ttlMs : ℤ))
    (h2 : (t2 : ℤ) - (st.updatedAt : ℤ) ≤ (st.ttlMs : ℤ)) :
    getCachedRate spread st t1 false f1
        = (Except.ok { payload := d, cache := true, stale := false }, st, false) ∧
    getCachedRate spread st t2 false f2
        = (Except.ok { payload := d, cache := true, stale := false }, st, false) := by
  have hc1 : (false = false ∧
      decide ((st.ttlMs : ℤ) < (t1 : ℤ) - (st.updatedAt : ℤ)) = false) :=
    ⟨rfl, by rw [decide_eq_false_iff_not]; omega⟩
  have hc2 : (false = false ∧
      decide ((st.ttlMs : ℤ) < (t2 : ℤ) - (st.updatedAt : ℤ)) = false) :=
    ⟨rfl, by rw [decide_eq_false_iff_not]; omega⟩
  constructor
  · unfold getCachedRate
    rw [hd]
    dsimp only
    rw [if_pos hc1]
  · unfold getCachedRate
    rw [hd]
    dsimp only
    rw [if_pos hc2]

/-- Witness for C5: two in-TTL calls on a concrete cache. -/
theorem get_cached_rate_ttl_idempotent_witness :
    getCachedRate (1 / 4)
        ⟨some { wld_usd := some 1, usd_cop := some 4000, wld_cop_bruto := 4000,
                wld_cop_usuario := 3000, spread_percent := 25,
                fuente := "worldapp_get_prices", fecha := 5 }, 0, 60000⟩
        10 false (Except.error ("down"))
      = (Except.ok
          { payload := { wld_usd := some 1, usd_cop := some 4000, wld_cop_bruto := 4000,
                         wld_cop_usuario := 3000, spread_percent := 25,
                         fuente := "worldapp_get_prices", fecha := 5 }
            cache := true
            stale := false },
         ⟨some { wld_usd := some 1, usd_cop := some 4000, wld_cop_bruto := 4000,
                 wld_cop_usuario := 3000, spread_percent := 25,
                 fuente := "worldapp_get_prices", fecha := 5 }, 0, 60000⟩, false) ∧
    getCachedRate (1 / 4)
        ⟨some { wld_usd := some 1, usd_cop := some 4000, wld_cop_bruto := 4000,
                wld_cop_usuario := 3000, spread_percent := 25,
                fuente := "worldapp_get_prices", fecha := 5 }, 0, 60000⟩
        20 false (Except.ok ⟨some 1, 4100⟩)
      = (Except.ok
          { payload := { wld_usd := some 1, usd_cop := some 4000, wld_cop_bruto := 4000,
                         wld_cop_usuario := 3000, spread_percent := 25,
                         fuente := "worldapp_get_prices", fecha := 5 }
            cache := true
            stale := false },
         ⟨some { wld_usd := some 1, usd_cop := some 4000, wld_cop_bruto := 4000,
                 wld_cop_usuario := 3000, spread_percent := 25,
                 fuente := "worldapp_get_prices", fecha := 5 }, 0, 60000⟩, false) :=
  get_cached_rate_ttl_idempotent (1 / 4) _ _ 10 20 (Except.error ("down"))
    (Except.ok ⟨some 1, 4100⟩) rfl (by norm_num) (by norm_num)

/-! ## C6: net rate versus gross rate -/

/-- C6 counterexample: with margin 1/4 and an upstream WLD/COP price of
1.111, the snapshot stores `wld_cop_bruto = 1.11` and
`wld_cop_usuario = 0.83` (both passed through `toFixed(2)`), and
`0.83 ≠ 1.11 * (1 - 1/4) = 0.8325` — the user-facing net rate is *not*
exactly the gross rate times `(1 - margin)`; it is also not exactly
`1.111 * (1 - 1/4) = 0.83325`. -/
theorem compute_rate_now_rounding_counterexample :
    computeRateNow (1 / 4) 0 (Except.ok ⟨some 1, 1111 / 1000⟩)
      = Except.ok
          { wld_usd := some 1
            usd_cop := some (1111 / 1000)
            wld_cop_bruto := 111 / 100
            wld_cop_usuario := 83 / 100
            spread_percent := 25
            fuente := "worldapp_get_prices"
            fecha := 0 } ∧
    (83 : ℚ) / 100 ≠ 111 / 100 * (1 - 1 / 4) ∧
    (83 : ℚ) / 100 ≠ 1111 / 1000 * (1 - 1 / 4) := by
  refine ⟨?_, by norm_num, by norm_num⟩
  simp only [computeRateNow, round2, Rat.floor]
  norm_num

/-- C6 amended: for every snapshot the rate service computes, the stored
user-facing net rate is the exact product `wldCop * (1 - margin)` rounded to
two decimal places (`toFixed(2)`), hence within 1/200 of the exact product;
the stored gross rate is likewise the rounded upstream price.  The exact
multiplicative identity holds only for the pre-rounding intermediate value,
not the stored snapshot fields. -/
theorem compute_rate_now_net_rate_rounded (spread : ℚ) (now : ℕ) (p : PricesResult) :
    ∃ pl, computeRateNow spread now (Except.ok p) = Except.ok pl ∧
      pl.wld_cop_bruto = round2 p.wldCop ∧
      pl.wld_cop_usuario = round2 (p.wldCop * (1 - spread)) ∧
      |pl.wld_cop_usuario - p.wldCop * (1 - spread)| ≤ 1 / 200 := by
  refine ⟨_, rfl, rfl, rfl, ?_⟩
  exact abs_round2_sub_le _

/-! ## C2, C7, C8: order-creation claims -/

theorem ordersToday_cons (o : OrderRec) (l : List OrderRec) (n : String) (i : ℕ)
    (h1 : o.nullifier = n) (h2 : i ≤ o.creada_en) :
    ordersToday (o :: l) n i = o :: ordersToday l n i := by
  simp [ordersToday, List.filter_cons, h1, h2]

/-- C2: with per-day limit `N`, when the store holds `k` orders of the given
nullifier created at or after the start of the current Colombia day, an
otherwise-valid creation succeeds when `k < N` (and the count of same-day
orders for that nullifier then becomes `k + 1`, so the N-th creation of a day
succeeds and the (N+1)-th fails), and fails with the 429 quota error, store
untouched, when `k ≥ N`. -/
theorem create_order_daily_quota (N : ℕ) (spread : ℚ) (now : ColTime)
    (input : CreateInput) (st : Store)
    (hb : input.banco ∈ bancosPermitidos)
    (hv : input.verified = true)
    (hn : input.nullifier ≠ "")
    (hf : input.montoFinite = true)
    (hm : 1 ≤ input.montoWLD) :
    ((ordersToday st.orders input.nullifier (now.days * 1440)).length < N →
      (∃ o, (createOrder N spread now input st).1 = Except.ok o) ∧
      (ordersToday (createOrder N spread now input st).2.orders input.nullifier
          (now.days * 1440)).length
        = (ordersToday st.orders input.nullifier (now.days * 1440)).length + 1) ∧
    (N ≤ (ordersToday st.orders input.nullifier (now.days * 1440)).length →
      (createOrder N spread now input st).1
        = Except.error ⟨429, "Has alcanzado el número máximo de órdenes permitidas por hoy. Intenta nuevamente mañana."⟩ ∧
      (createOrder N spread now input st).2 = st) := by
  have hnb : ¬ ¬ (input.banco ∈ bancosPermitidos) := not_not_intro hb
  have hnv : ¬ (input.verified = false ∨ input.nullifier = "") := by
    rintro (h | h)
    · rw [hv] at h; exact Bool.noConfusion h
    · exact hn h
  have hnm : ¬ (input.montoFinite = false ∨ input.montoWLD < 1) := by
    rintro (h | h)
    · rw [hf] at h; exact Bool.noConfusion h
    · exact absurd hm (not_le.mpr h)
  constructor
  · intro hlt
    have hq : ¬ (N ≤ (ordersToday st.orders input.nullifier (now.days * 1440)).length) :=
      not_le.mpr hlt
    unfold createOrder
    rw [if_neg hnb, if_neg hnv, if_neg hnm]
    dsimp only
    rw [if_neg hq]
    refine ⟨⟨_, rfl⟩, ?_⟩
    rw [ordersToday_cons _ _ _ _ rfl (by dsimp only [toTs]; omega)]
    rw [List.length_cons]
  · intro hge
    unfold createOrder
    rw [if_neg hnb, if_neg hnv, if_neg hnm]
    dsimp only
    rw [if_pos hge]
    exact ⟨rfl, rfl⟩

/-- Witness for C2: daily limit 3, a store already holding 3 orders of the
nullifier created on the current day — the 4th creation fails with 429 and
the store is unchanged. -/
theorem create_order_daily_quota_witness :
    (createOrder 3 (1 / 4) ⟨1, 10, 0⟩
        { banco := "Nequi", titular := "Ana", numero := "300123", montoWLD := 2,
          montoFinite := true, montoCOP := 9000, montoCopFinite := true,
          verified := true, nullifier := "0xabc", wld_tx_id := none }
        { orders := [
            { id := 1, banco := "Nequi", titular := "Ana", numero := "300123",
              montoWLD := 2, montoCOP := 9000, verified := true, nullifier := "0xabc",
              estado := "pendiente", creada_en := 1440, actualizada_en := 1440,
              wld_tx_id := none, inventario_fecha := 1, ganancia_cop := 3000,
              status_history := [(1440, "pendiente")] },
            { id := 2, banco := "Nequi", titular := "Ana", numero := "300123",
              montoWLD := 2, montoCOP := 9000, verified := true, nullifier := "0xabc",
              estado := "pendiente", creada_en := 1500, actualizada_en := 1500,
              wld_tx_id := none, inventario_fecha := 1, ganancia_cop := 3000,
              status_history := [(1500, "pendiente")] },
            { id := 3, banco := "Nequi", titular := "Ana", numero := "300123",
              montoWLD := 2, montoCOP := 9000, verified := true, nullifier := "0xabc",
              estado := "pendiente", creada_en := 1560, actualizada_en := 1560,
              wld_tx_id := none, inventario_fecha := 1, ganancia_cop := 3000,
              status_history := [(1560, "pendiente")] }],
          counter := 3 }).1
      = Except.error ⟨429, "Has alcanzado el número máximo de órdenes permitidas por hoy. Intenta nuevamente mañana."⟩ ∧
    (createOrder 3 (1 / 4) ⟨1, 10, 0⟩
        { banco := "Nequi", titular := "Ana", numero := "300123", montoWLD := 2,
          montoFinite := true, montoCOP := 9000, montoCopFinite := true,
          verified := true, nullifier := "0xabc", wld_tx_id := none }
        { orders := [
            { id := 1, banco := "Nequi", titular := "Ana", numero := "300123",
              montoWLD := 2, montoCOP := 9000, verified := true, nullifier := "0xabc",
              estado := "pendiente", creada_en := 1440, actualizada_en := 1440,
              wld_tx_id := none, inventario_fecha := 1, ganancia_cop := 3000,
              status_history := [(1440, "pendiente")] },
            { id := 2, banco := "Nequi", titular := "Ana", numero := "300123",
              montoWLD := 2, montoCOP := 9000, verified := true, nullifier := "0xabc",
              estado := "pendiente", creada_en := 1500, actualizada_en := 1500,
              wld_tx_id := none, inventario_fecha := 1, ganancia_cop := 3000,
              status_history := [(1500, "pendiente")] },
            { id := 3, banco := "Nequi", titular := "Ana", numero := "300123",
              montoWLD := 2, montoCOP := 9000, verified := true, nullifier := "0xabc",
              estado := "pendiente", creada_en := 1560, actualizada_en := 1560,
              wld_tx_id := none, inventario_fecha := 1, ganancia_cop := 3000,
              status_history := [(1560, "pendiente")] }],
          counter := 3 }).2
      = { orders := [
            { id := 1, banco := "Nequi", titular := "Ana", numero := "300123",
              montoWLD := 2, montoCOP := 9000, verified := true, nullifier := "0xabc",
              estado := "pendiente", creada_en := 1440, actualizada_en := 1440,
              wld_tx_id := none, inventario_fecha := 1, ganancia_cop := 3000,
              status_history := [(1440, "pendiente")] },
            { id := 2, banco := "Nequi", titular := "Ana", numero := "300123",
              montoWLD := 2, montoCOP := 9000, verified := true, nullifier := "0xabc",
              estado := "pendiente", creada_en := 1500, actualizada_en := 1500,
              wld_tx_id := none, inventario_fecha := 1, ganancia_cop := 3000,
              status_history := [(1500, "pendiente")] },
            { id := 3, banco := "Nequi", titular := "Ana", numero := "300123",
              montoWLD := 2, montoCOP := 9000, verified := true, nullifier := "0xabc",
              estado := "pendiente", creada_en := 1560, actualizada_en := 1560,
              wld_tx_id := none, inventario_fecha := 1, ganancia_cop := 3000,
              status_history := [(1560, "pendiente")] }],
          counter := 3 } :=
  (create_order_daily_quota 3 (1 / 4) ⟨1, 10, 0⟩ _ _ (by decide) rfl (by decide) rfl
    (by norm_num)).2 (by decide)

/-- C7: every valid creation (permitted bank, verified identity with a
nullifier, finite amount ≥ 1, quota not exceeded) returns and persists an
order whose `estado` is `pendiente` and whose `status_history` is exactly the
single entry recording the transition into `pendiente`. -/
theorem create_order_pending_history (N : ℕ) (spread : ℚ) (now : ColTime)
    (input : CreateInput) (st : Store)
    (hb : input.banco ∈ bancosPermitidos)
    (hv : input.verified = true)
    (hn : input.nullifier ≠ "")
    (hf : input.montoFinite = true)
    (hm : 1 ≤ input.montoWLD)
    (hq : (ordersToday st.orders input.nullifier (now.days * 1440)).length < N) :
    ∃ o, (createOrder N spread now input st).1 = Except.ok o ∧
      o.estado = "pendiente" ∧
      o.status_history = [(toTs now, "pendiente")] ∧
      o.status_history.length = 1 ∧
      (createOrder N spread now input st).2.orders = o :: st.orders := by
  have hnb : ¬ ¬ (input.banco ∈ bancosPermitidos) := not_not_intro hb
  have hnv : ¬ (input.verified = false ∨ input.nullifier = "") := by
    rintro (h | h)
    · rw [hv] at h; exact Bool.noConfusion h
    · exact hn h
  have hnm : ¬ (input.montoFinite = false ∨ input.montoWLD < 1) := by
    rintro (h | h)
    · rw [hf] at h; exact Bool.noConfusion h
    · exact absurd hm (not_le.mpr h)
  unfold createOrder
  rw [if_neg hnb, if_neg hnv, if_neg hnm]
  dsimp only
  rw [if_neg (not_le.mpr hq)]
  exact ⟨_, rfl, rfl, rfl, rfl, rfl⟩

/-- Witness for C7: a valid creation on an empty store. -/
theorem create_order_pending_history_witness :
    ∃ o, (createOrder 3 (1 / 4) ⟨1, 10, 0⟩
        { banco := "Nequi", titular := "Ana", numero := "300123", montoWLD := 2,
          montoFinite := true, montoCOP := 9000, montoCopFinite := true,
          verified := true, nullifier := "0xabc", wld_tx_id := none }
        { orders := [], counter := 0 }).1 = Except.ok o ∧
      o.estado = "pendiente" ∧
      o.status_history = [(toTs ⟨1, 10, 0⟩, "pendiente")] ∧
      o.status_history.length = 1 ∧
      (createOrder 3 (1 / 4) ⟨1, 10, 0⟩
        { banco := "Nequi", titular := "Ana", numero := "300123", montoWLD := 2,
          montoFinite := true, montoCOP := 9000, montoCopFinite := true,
          verified := true, nullifier := "0xabc", wld_tx_id := none }
        { orders := [], counter := 0 }).2.orders = o :: ([] : List OrderRec) :=
  create_order_pending_history 3 (1 / 4) ⟨1, 10, 0⟩ _ _ (by decide) rfl (by decide) rfl
    (by norm_num) (by decide)

/-- C8: a creation request whose `banco` is outside the permitted set fails
with 400 `Banco no permitido` and leaves the entire store — records and id
counter alike — exactly as it was. -/
theorem create_order_invalid_bank (N : ℕ) (spread : ℚ) (now : ColTime)
    (input : CreateInput) (st : Store)
    (hb : input.banco ∉ bancosPermitidos) :
    createOrder N spread now input st = (Except.error ⟨400, "Banco no permitido"⟩, st) := by
  unfold createOrder
  rw [if_pos hb]

/-- Witness for C8: `banco = "UnknownBank"` against a populated store. -/
theorem create_order_invalid_bank_witness :
    createOrder 3 (1 / 4) ⟨1, 10, 0⟩
        { banco := "UnknownBank", titular := "Ana", numero := "300123", montoWLD := 2,
          montoFinite := true, montoCOP := 9000, montoCopFinite := true,
          verified := true, nullifier := "0xabc", wld_tx_id := none }
        { orders := [], counter := 7 }
      = (Except.error ⟨400, "Banco no permitido"⟩, { orders := [], counter := 7 }) :=
  create_order_invalid_bank 3 (1 / 4) ⟨1, 10, 0⟩ _ _ (by decide)

/-! ## C9: unauthorized status updates are rejected without mutation -/

/-- C9: for every order store and status-update request whose session token
is missing (`none` header), malformed (no `Bearer ` scheme), rejected by the
verifier (bad signature / expired), or carrying a non-admin role claim, the
`PUT /api/orders/:id/estado` handler answers 403 `No autorizado (admin)` and
the store — hence every order, its `estado`, its `status_history` and its
`actualizada_en` — is exactly unchanged.  The handler is a total function:
no exception is thrown, `isAdminAuthenticated` returns `false` rather than
failing. -/
theorem put_estado_unauthorized (verify : String → Option JwtPayload)
    (header : Option String) (idParam : ℕ) (estado : String) (now : ℕ) (st : Store)
    (hbad : header = none ∨ ∃ h, header = some h ∧
      (¬ startsWithBearer h ∨ verify (sliceFrom7 h) = none ∨
        ∃ p, verify (sliceFrom7 h) = some p ∧ p.role ≠ "admin")) :
    putOrderEstado verify header idParam estado now st
      = (Except.error ⟨403, "No autorizado (admin)"⟩, st) := by
  have hauth : isAdminAuthenticated verify header = false := by
    rcases hbad with rfl | ⟨h, rfl, hcase⟩
    · rfl
    · rcases hcase with hb | hv | ⟨p, hp, hr⟩
      · simp [isAdminAuthenticated, hb]
      · simp [isAdminAuthenticated, hv]
      · simp [isAdminAuthenticated, hp, hr]
  simp [putOrderEstado, hauth]

/-- Witness for C9: a request with no `Authorization` header at all, under a
verifier that rejects every token. -/
theorem put_estado_unauthorized_witness :
    putOrderEstado (fun _ => none) none 5 ("pagada") 77 { orders := [], counter := 0 }
      = (Except.error ⟨403, "No autorizado (admin)"⟩, { orders := [], counter := 0 }) :=
  put_estado_unauthorized (fun _ => none) none 5 ("pagada") 77
    { orders := [], counter := 0 } (Or.inl rfl)

/-! ## C10: transition into `pagada` and the onchain reference -/

/-- C10 counterexample: an authorized transition of order 5 — which has no
onchain reference (`wld_tx_id = none`) — into `pagada` succeeds, appends the
history entry and refreshes `actualizada_en`, but the resulting order still
has `wld_tx_id = none`: no placeholder onchain reference is synthesized or
stored, contrary to the claim. -/
theorem put_estado_pagada_counterexample :
    (putOrderEstado (fun t => if t = "tok" then some { role := "admin" } else none)
        (some ("Bearer tok")) 5 ("pagada") 200
        { orders := [
            { id := 5, banco := "Nequi", titular := "Ana", numero := "300123",
              montoWLD := 2, montoCOP := 9000, verified := true, nullifier := "n1",
              estado := "recibida_wld", creada_en := 100, actualizada_en := 100,
              wld_tx_id := none, inventario_fecha := 0, ganancia_cop := 0,
              status_history := [(100, "pendiente")] }],
          counter := 5 }).1
      = Except.ok
          { id := 5, banco := "Nequi", titular := "Ana", numero := "300123",
            montoWLD := 2, montoCOP := 9000, verified := true, nullifier := "n1",
            estado := "pagada", creada_en := 100, actualizada_en := 200,
            wld_tx_id := none, inventario_fecha := 0, ganancia_cop := 0,
            status_history := [(100, "pendiente"), (200, "pagada")] } := by
  rfl

/-- C10 amended: an authorized transition into `pagada` appends the
`(timestamp, toStatus)` history entry and refreshes `actualizada_en`, but
does NOT synthesize any placeholder onchain reference: the field
`wld_tx_id` is returned (and stored) exactly as it was, whether absent or
present. -/
theorem put_estado_pagada_no_placeholder (verify : String → Option JwtPayload)
    (header : Option String) (idParam now : ℕ) (st : Store) (orden : OrderRec)
    (hauth : isAdminAuthenticated verify header = true)
    (hfind : st.orders.find? (fun o => o.id == idParam) = some orden) :
    ∃ o, (putOrderEstado verify header idParam ("pagada") now st).1 = Except.ok o ∧
      o.wld_tx_id = orden.wld_tx_id ∧
      o.estado = "pagada" ∧
      o.actualizada_en = now ∧
      o.status_history = orden.status_history ++ [(now, "pagada")] ∧
      (putOrderEstado verify header idParam ("pagada") now st).2
        = { st with orders := st.orders.map (fun x => if x.id == idParam then o else x) } := by
  unfold putOrderEstado
  rw [if_neg (by simp [hauth]), if_neg (by decide)]
  rw [hfind]
  exact ⟨_, rfl, rfl, rfl, rfl, rfl, rfl⟩

/-- Witness for C10 (amended): an authorized `pagada` transition on a
concrete one-order store; the empty reference of the order stays empty. -/
theorem put_estado_pagada_no_placeholder_witness :
    ∃ o, (putOrderEstado (fun t => if t = "tok" then some { role := "admin" } else none)
        (some ("Bearer tok")) 5 ("pagada") 200
        { orders := [
            { id := 5, banco := "Nequi", titular := "Ana", numero := "300123",
              montoWLD := 2, montoCOP := 9000, verified := true, nullifier := "n1",
              estado := "recibida_wld", creada_en := 100, actualizada_en := 100,
              wld_tx_id := none, inventario_fecha := 0, ganancia_cop := 0,
              status_history := [(100, "pendiente")] }],
          counter := 5 }).1 = Except.ok o ∧
      o.wld_tx_id = none ∧
      o.estado = "pagada" ∧
      o.actualizada_en = 200 ∧
      o.status_history = [(100, "pendiente")] ++ [(200, "pagada")] ∧
      (putOrderEstado (fun t => if t = "tok" then some { role := "admin" } else none)
        (some ("Bearer tok")) 5 ("pagada") 200
        { orders := [
            { id := 5, banco := "Nequi", titular := "Ana", numero := "300123",
              montoWLD := 2, montoCOP := 9000, verified := true, nullifier := "n1",
              estado := "recibida_wld", creada_en := 100, actualizada_en := 100,
              wld_tx_id := none, inventario_fecha := 0, ganancia_cop := 0,
              status_history := [(100, "pendiente")] }],
          counter := 5 }).2
        = { orders :=
              [({ id := 5, banco := "Nequi", titular := "Ana", numero := "300123",
                  montoWLD := 2, montoCOP := 9000, verified := true, nullifier := "n1",
                  estado := "recibida_wld", creada_en := 100, actualizada_en := 100,
                  wld_tx_id := none, inventario_fecha := 0, ganancia_cop := 0,
                  status_history := [(100, "pendiente")] } : OrderRec)].map
                (fun x => if x.id == 5 then o else x)
            counter := 5 } :=
  put_estado_pagada_no_placeholder
    (fun t => if t = "tok" then some { role := "admin" } else none)
    (some ("Bearer tok")) 5 200
    { orders := [
        { id := 5, banco := "Nequi", titular := "Ana", numero := "300123",
          montoWLD := 2, montoCOP := 9000, verified := true, nullifier := "n1",
          estado := "recibida_wld", creada_en := 100, actualizada_en := 100,
          wld_tx_id := none, inventario_fecha := 0, ganancia_cop := 0,
          status_history := [(100, "pendiente")] }],
      counter := 5 }
    { id := 5, banco := "Nequi", titular := "Ana", numero := "300123",
      montoWLD := 2, montoCOP := 9000, verified := true, nullifier := "n1",
      estado := "recibida_wld", creada_en := 100, actualizada_en := 100,
      wld_tx_id := none, inventario_fecha := 0, ganancia_cop := 0,
      status_history := [(100, "pendiente")] }
    (by decide) rfl

end ChangeWLD
